import Mathlib

/-!
Verification of the HeatControlAPI decision and telemetry core.

The definitions below are a shallow embedding of the Python source in
`HeatControlAPI/API/main.py` (together with the table definitions in
`HeatControlAPI/API/sql.py`).  Temperatures (Python floats, used only for
comparisons) are embedded as rationals; wall-clock times of day are seconds
since midnight; instants are seconds since the epoch.  The MySQL tables are
embedded as lists of rows, the InfluxDB bucket as a list of samples in write
order, and HTTP exceptions as an error result carrying the status code and
detail string of the corresponding `HTTPException`.
-/

namespace HeatControl

/-- A row of the `rooms` table (columns `id`, `user_id`, `name`). -/
structure RoomRow where
  id : Nat
  user_id : Nat
  name : String
deriving DecidableEq

/-- A row of the `room_settings` table: per-room day/night schedule.
`night_start` and `night_end` are TIME values as seconds since midnight. -/
structure SettingsRow where
  user_id : Nat
  room_id : Nat
  timezone : String
  wanted_temp_day : ℚ
  wanted_temp_night : ℚ
  night_start : Nat
  night_end : Nat
deriving DecidableEq

/-- One InfluxDB point: measurement name, `user_id` tag, optional `room_id`
tag (weather points carry none), field value and timestamp. -/
structure Sample where
  measurement : String
  user_id : Nat
  room_id : Option Nat
  value : ℚ
  timestamp : Nat
deriving DecidableEq

/-- The state visible to the embedded endpoints: the two SQL tables the
decision logic touches plus the InfluxDB bucket in write order. -/
structure AppState where
  rooms : List RoomRow
  settings : List SettingsRow
  store : List Sample
deriving DecidableEq

/-- An `HTTPException(status_code, detail)` raised by an endpoint. -/
structure HTTPError where
  status_code : Nat
  detail : String
deriving DecidableEq

/-- The query `SELECT id FROM rooms WHERE id = %s AND user_id = %s`
returned at least one row. -/
def roomExists (st : AppState) (uid rid : Nat) : Bool :=
  st.rooms.any (fun r => r.id == rid && r.user_id == uid)

/-- The first row of `SELECT ... FROM room_settings WHERE user_id = %s AND
room_id = %s`, if any. -/
def findSettings (st : AppState) (uid rid : Nat) : Option SettingsRow :=
  st.settings.find? (fun s => s.user_id == uid && s.room_id == rid)

/-- The night-window test of `get_heating_status` (main.py lines 745-749):
`is_night = night_start <= now < night_end` when `night_start < night_end`,
else `is_night = now >= night_start or now < night_end`. -/
def is_night (night_start night_end now : Nat) : Bool :=
  if night_start < night_end then
    decide (night_start ≤ now) && decide (now < night_end)
  else
    decide (now ≥ night_start) || decide (now < night_end)

/-- The resolved target of `get_heating_status` (main.py line 750):
`wanted_temp_night` if night, else `wanted_temp_day`. -/
def target_temp (s : SettingsRow) (now : Nat) : ℚ :=
  if is_night s.night_start s.night_end now then s.wanted_temp_night
  else s.wanted_temp_day

/-- The Flux filter of the heating-status query: measurement
`temperature`, matching `user_id` and `room_id` tags. -/
def roomSampleMatch (uid rid : Nat) (s : Sample) : Bool :=
  s.measurement == "temperature" && s.user_id == uid && s.room_id == some rid

/-- Membership in the `range(start: -7d)` window of a Flux query executed
at instant `now`: the 7 days (604800 s) up to but excluding `now`. -/
def inLookback (now t : Nat) : Bool :=
  decide (now - 604800 ≤ t) && decide (t < now)

/-- Of two samples, the one `last()` keeps: the later timestamp, the later
write on a tie. -/
def laterSample (a b : Sample) : Sample :=
  if a.timestamp ≤ b.timestamp then b else a

/-- The value produced by the `|> last()` Flux query of
`get_heating_status` over the room series within the 7-day lookback, if
any sample matches. -/
def latestValue (store : List Sample) (uid rid now : Nat) : Option ℚ :=
  ((store.filter (fun s => roomSampleMatch uid rid s && inLookback now s.timestamp)).foldl
      (fun acc s =>
        match acc with
        | none => some s
        | some a => some (laterSample a s)) none).map (fun s => s.value)

/-- The endpoint `GET /heating_on/{room_id}` (main.py lines 716-769).
`serverTod` is the time of day `datetime.now().time()` of the server
process; `utcNow` is the instant at which the Flux query runs. -/
def get_heating_status (st : AppState) (uid rid : Nat) (serverTod utcNow : Nat) :
    Except HTTPError Bool :=
  if roomExists st uid rid = false then
    .error ⟨404, "Room not found"⟩
  else
    match findSettings st uid rid with
    | none => .error ⟨404, "Room settings not found"⟩
    | some s =>
      match latestValue st.store uid rid utcNow with
      | none => .error ⟨404, "No temperature data found for this room"⟩
      | some v => .ok (decide (v < target_temp s serverTod))

/-- Time of day, in seconds since midnight, of epoch instant `utc` in a
timezone whose UTC offset at that instant is `off` seconds. -/
def todAtOffset (utc off : Nat) : Nat := (utc + off) % 86400

/-- The heating-status endpoint at epoch instant `utcNow` on a server whose
local timezone has UTC offset `serverOff`: the code takes the time of day
from `datetime.now().time()`, the server-local clock (main.py line 732). -/
def get_heating_status_at (st : AppState) (uid rid utcNow serverOff : Nat) :
    Except HTTPError Bool :=
  get_heating_status st uid rid (todAtOffset utcNow serverOff) utcNow

/-- Modelled from the spec: target resolution that first extracts the time
of day of now in `schedule.timezone` (spec section 4.1, step 1), where
`tzOffset` gives the UTC offset of a named timezone at the instant in
question.  The code of `get_heating_status` never reads the `timezone`
column, so this conversion has no counterpart there. -/
def resolve_target_spec (tzOffset : String → Nat) (s : SettingsRow) (utcNow : Nat) : ℚ :=
  target_temp s (todAtOffset utcNow (tzOffset s.timezone))

/-- The same application state with every settings row's `timezone` column
overwritten by `tz`. -/
def setTimezone (tz : String) (st : AppState) : AppState :=
  { st with settings := st.settings.map (fun s => { s with timezone := tz }) }

/-- A one-room state used to instantiate the decision theorems: room 1 of
user 1 with the default schedule (day 21, night 18, 22:00-06:00) and a
single sample of value 20 at instant 1000. -/
def stOneRoom : AppState :=
  { rooms := [⟨1, 1, "Living"⟩],
    settings := [⟨1, 1, "Europe/Berlin", 21, 18, 79200, 21600⟩],
    store := [⟨"temperature", 1, some 1, 20, 1000⟩] }

theorem findSettings_setTimezone (st : AppState) (uid rid : Nat) (tz : String) :
    findSettings (setTimezone tz st) uid rid =
      (findSettings st uid rid).map (fun s => { s with timezone := tz }) := by
  show List.find? _ (st.settings.map _) = _
  rw [List.find?_map]
  rfl

/-- Claim C1: for every schedule, if `night_start < night_end` the moment is
night iff `night_start <= time_of_day < night_end`; otherwise (wrap) night
iff `time_of_day >= night_start` or `time_of_day < night_end`; the boundary
is closed at `night_start` and open at `night_end`; the resolved target is
`target_night` when night and `target_day` otherwise. -/
theorem night_window_membership (s : SettingsRow) (now : Nat) :
    (s.night_start < s.night_end →
      (is_night s.night_start s.night_end now = true ↔
        s.night_start ≤ now ∧ now < s.night_end)) ∧
    (¬ s.night_start < s.night_end →
      (is_night s.night_start s.night_end now = true ↔
        now ≥ s.night_start ∨ now < s.night_end)) ∧
    target_temp s now =
      (if is_night s.night_start s.night_end now then s.wanted_temp_night
       else s.wanted_temp_day) := by
  refine ⟨fun h => ?_, fun h => ?_, rfl⟩ <;> simp [is_night, h]

theorem night_window_membership_witness :
    is_night 79200 21600 84600 = true ∧
    target_temp ⟨1, 1, "Europe/Berlin", 21, 18, 79200, 21600⟩ 84600 = 18 ∧
    is_night 79200 21600 25200 = false := by
  have h := night_window_membership ⟨1, 1, "Europe/Berlin", 21, 18, 79200, 21600⟩ 84600
  refine ⟨(h.2.1 (by decide)).mpr (by decide), ?_, by decide⟩
  rw [h.2.2]
  decide

/-- Claim C4: a schedule with `night_start = night_end` falls into the wrap
branch, whose test holds for every time of day, so the window is degenerate
"always night" and the resolved target is always `target_night`. -/
theorem degenerate_window_always_night (s : SettingsRow) (now : Nat)
    (h : s.night_start = s.night_end) :
    is_night s.night_start s.night_end now = true ∧
    target_temp s now = s.wanted_temp_night := by
  have h1 : is_night s.night_start s.night_end now = true := by
    simp [is_night, h]
    omega
  exact ⟨h1, by simp [target_temp, h1]⟩

theorem degenerate_window_always_night_witness :
    is_night 21600 21600 43200 = true ∧
    target_temp ⟨1, 1, "UTC", 21, 18, 21600, 21600⟩ 43200 = 18 := by
  have h := degenerate_window_always_night ⟨1, 1, "UTC", 21, 18, 21600, 21600⟩ 43200 rfl
  exact ⟨h.1, h.2⟩

/-- Claim C2: for every room with a schedule and at least one sample in the
lookback window, the decision returns `heating_on = true` iff the latest
sample value is strictly below the resolved target; equality yields
`false`. -/
theorem heating_on_iff_below_target (st : AppState) (uid rid serverTod utcNow : Nat)
    (s : SettingsRow) (v : ℚ)
    (hroom : roomExists st uid rid = true)
    (hs : findSettings st uid rid = some s)
    (hv : latestValue st.store uid rid utcNow = some v) :
    get_heating_status st uid rid serverTod utcNow =
      .ok (decide (v < target_temp s serverTod)) ∧
    (get_heating_status st uid rid serverTod utcNow = .ok true ↔
      v < target_temp s serverTod) ∧
    (v = target_temp s serverTod →
      get_heating_status st uid rid serverTod utcNow = .ok false) := by
  have h1 : get_heating_status st uid rid serverTod utcNow =
      .ok (decide (v < target_temp s serverTod)) := by
    simp [get_heating_status, hroom, hs, hv]
  refine ⟨h1, ?_, fun he => ?_⟩
  · rw [h1]
    simp
  · rw [h1, he]
    simp

theorem heating_on_iff_below_target_witness :
    get_heating_status stOneRoom 1 1 43200 2000 = .ok true := by
  have h := heating_on_iff_below_target stOneRoom 1 1 43200 2000
    ⟨1, 1, "Europe/Berlin", 21, 18, 79200, 21600⟩ 20 (by decide) (by decide) (by decide)
  rw [h.1]
  exact congrArg Except.ok (by decide)

/-- Claim C8: the decision fails with status 404 "Room not found" when the
room does not exist for the owner, with 404 "Room settings not found" when
the room exists but has no settings row, and with 404 "No temperature data
found for this room" when room and settings exist but no sample lies in the
7-day lookback; the room and settings checks come before the sample
lookup. -/
theorem decision_error_paths (st : AppState) (uid rid serverTod utcNow : Nat) :
    (roomExists st uid rid = false →
      get_heating_status st uid rid serverTod utcNow =
        .error ⟨404, "Room not found"⟩) ∧
    (roomExists st uid rid = true → findSettings st uid rid = none →
      get_heating_status st uid rid serverTod utcNow =
        .error ⟨404, "Room settings not found"⟩) ∧
    (∀ s, roomExists st uid rid = true → findSettings st uid rid = some s →
      latestValue st.store uid rid utcNow = none →
      get_heating_status st uid rid serverTod utcNow =
        .error ⟨404, "No temperature data found for this room"⟩) := by
  refine ⟨fun h => ?_, fun h1 h2 => ?_, fun s h1 h2 h3 => ?_⟩ <;>
    simp [get_heating_status, *]

theorem decision_error_paths_witness :
    get_heating_status ⟨[], [], [⟨"temperature", 1, some 1, 20, 1000⟩]⟩ 1 1 0 2000 =
      .error ⟨404, "Room not found"⟩ := by
  exact (decision_error_paths ⟨[], [], [⟨"temperature", 1, some 1, 20, 1000⟩]⟩ 1 1 0 2000).1
    (by decide)

/-- Claim C3 counterexample: at instant 77400 (21:30 UTC) on a server whose
local clock is UTC, the decision for the default schedule (night 22:00 to
06:00, timezone Europe/Berlin at UTC offset +3600) with latest sample 20
returns heating on, because the code evaluated the night window at the
server time of day 21:30 (day, target 21).  Resolving the target in
`schedule.timezone` as the claim states puts the clock at 22:30, inside the
night window (target 18), under which 20 is not below target and heating
would be off.  So the time of day used is not the one in
`schedule.timezone`. -/
theorem heating_timezone_counterexample :
    get_heating_status_at stOneRoom 1 1 77400 0 = .ok true ∧
    resolve_target_spec (fun _ => 3600)
      ⟨1, 1, "Europe/Berlin", 21, 18, 79200, 21600⟩ 77400 = 18 ∧
    ¬ ((20 : ℚ) < resolve_target_spec (fun _ => 3600)
      ⟨1, 1, "Europe/Berlin", 21, 18, 79200, 21600⟩ 77400) := by
  refine ⟨?_, by decide, by decide⟩
  show Except.ok _ = _
  exact congrArg Except.ok (by decide)

/-- Claim C3 as amended: the time of day used in the night-window test is
the server-local time of day of now (`datetime.now().time()`), not the time
of day in `schedule.timezone`; the stored timezone column is never
consulted, so overwriting it changes nothing in the decision. -/
theorem heating_uses_server_clock (st : AppState) (uid rid utcNow serverOff : Nat)
    (tz : String) (s : SettingsRow) (v : ℚ)
    (hroom : roomExists st uid rid = true)
    (hs : findSettings st uid rid = some s)
    (hv : latestValue st.store uid rid utcNow = some v) :
    get_heating_status_at st uid rid utcNow serverOff =
      .ok (decide (v < target_temp s (todAtOffset utcNow serverOff))) ∧
    get_heating_status_at (setTimezone tz st) uid rid utcNow serverOff =
      get_heating_status_at st uid rid utcNow serverOff := by
  have h1 : get_heating_status_at st uid rid utcNow serverOff =
      .ok (decide (v < target_temp s (todAtOffset utcNow serverOff))) := by
    simp [get_heating_status_at, get_heating_status, hroom, hs, hv]
  have hroom2 : roomExists (setTimezone tz st) uid rid = true := hroom
  have hs2 : findSettings (setTimezone tz st) uid rid =
      some { s with timezone := tz } := by
    rw [findSettings_setTimezone, hs]
    rfl
  have hv2 : latestValue (setTimezone tz st).store uid rid utcNow = some v := hv
  have h2 : get_heating_status_at (setTimezone tz st) uid rid utcNow serverOff =
      .ok (decide (v < target_temp { s with timezone := tz }
        (todAtOffset utcNow serverOff))) := by
    simp [get_heating_status_at, get_heating_status, hroom2, hs2, hv2]
  exact ⟨h1, h2.trans h1.symm⟩

theorem heating_uses_server_clock_witness :
    get_heating_status_at (setTimezone "America/New_York" stOneRoom) 1 1 77400 0 =
      get_heating_status_at stOneRoom 1 1 77400 0 := by
  exact (heating_uses_server_clock stOneRoom 1 1 77400 0 "America/New_York"
    ⟨1, 1, "Europe/Berlin", 21, 18, 79200, 21600⟩ 20
    (by decide) (by decide) (by decide)).2

/-- The request body of `POST /temperature/batch`: room, ordered values and
optional list of timestamp strings. -/
structure TemperatureEntryBatch where
  room_id : Nat
  temperatures : List ℚ
  timestamps : Option (List String)

/-- Python `str.replace` of every `Z` by `+00:00`: the normalization a
supplied timestamp string undergoes before parsing (main.py line 453). -/
def replaceZ (s : String) : String :=
  String.mk (s.data.foldr
    (fun c acc =>
      if c = 'Z' then '+' :: '0' :: '0' :: ':' :: '0' :: '0' :: acc else c :: acc) [])

/-- The timestamp string considered for entry `i`: present only when the
`timestamps` list is given, non-empty (Python truthiness of the list) and
long enough (main.py line 451). -/
def tsAt (timestamps : Option (List String)) (i : Nat) : Option String :=
  match timestamps with
  | none => none
  | some ts => if ts = [] then none else ts.get? i

/-- The timestamp assigned to entry `i` (main.py lines 450-455): the parsed
supplied timestamp when one is supplied and parses, otherwise the per-entry
now.  `fromiso` embeds `datetime.fromisoformat` (an ISO-8601 parse that may
fail); `nows i` is the value of `datetime.now()` while entry `i` is
processed. -/
def entryTimestamp (fromiso : String → Option Nat) (nows : Nat → Nat)
    (timestamps : Option (List String)) (i : Nat) : Nat :=
  match tsAt timestamps i with
  | none => nows i
  | some str =>
    match fromiso (replaceZ str) with
    | some t => t
    | none => nows i

/-- A `temperature` point as written by the temperature endpoints. -/
def mkTempSample (uid rid : Nat) (v : ℚ) (t : Nat) : Sample :=
  ⟨"temperature", uid, some rid, v, t⟩

/-- The samples written by the loop of `post_temperature_batch` for the
values from index `i` on, in write order. -/
def batchSamples (uid rid : Nat) (fromiso : String → Option Nat) (nows : Nat → Nat)
    (timestamps : Option (List String)) : List ℚ → Nat → List Sample
  | [], _ => []
  | v :: rest, i =>
      mkTempSample uid rid v (entryTimestamp fromiso nows timestamps i) ::
        batchSamples uid rid fromiso nows timestamps rest (i + 1)

/-- The endpoint `POST /temperature/batch` (main.py lines 438-463).  An
error result carries the state at the instant the exception was raised. -/
def post_temperature_batch (st : AppState) (uid : Nat) (batch : TemperatureEntryBatch)
    (fromiso : String → Option Nat) (nows : Nat → Nat) :
    Except (HTTPError × AppState) (AppState × Nat) :=
  if roomExists st uid batch.room_id = false then
    .error (⟨404, "Room not found or access denied"⟩, st)
  else if batch.temperatures.length > 100 then
    .error (⟨400, "Maximum 100 temperatures per request"⟩, st)
  else
    let written :=
      batchSamples uid batch.room_id fromiso nows batch.timestamps batch.temperatures 0
    .ok ({ st with store := st.store ++ written }, batch.temperatures.length)

/-- The full list of samples an accepted batch appends. -/
def batchWritten (uid : Nat) (batch : TemperatureEntryBatch)
    (fromiso : String → Option Nat) (nows : Nat → Nat) : List Sample :=
  batchSamples uid batch.room_id fromiso nows batch.timestamps batch.temperatures 0

theorem batchSamples_length (uid rid : Nat) (fromiso : String → Option Nat)
    (nows : Nat → Nat) (timestamps : Option (List String)) :
    ∀ (l : List ℚ) (i : Nat),
      (batchSamples uid rid fromiso nows timestamps l i).length = l.length := by
  intro l
  induction l with
  | nil => intro i; rfl
  | cons v rest ih => intro i; simp [batchSamples, ih]

theorem batchSamples_map_value (uid rid : Nat) (fromiso : String → Option Nat)
    (nows : Nat → Nat) (timestamps : Option (List String)) :
    ∀ (l : List ℚ) (i : Nat),
      (batchSamples uid rid fromiso nows timestamps l i).map (fun smp => smp.value) = l := by
  intro l
  induction l with
  | nil => intro i; rfl
  | cons v rest ih => intro i; simp [batchSamples, ih, mkTempSample]

theorem batchSamples_get? (uid rid : Nat) (fromiso : String → Option Nat)
    (nows : Nat → Nat) (timestamps : Option (List String)) :
    ∀ (l : List ℚ) (i0 i : Nat),
      (batchSamples uid rid fromiso nows timestamps l i0).get? i =
        (l.get? i).map
          (fun v => mkTempSample uid rid v
            (entryTimestamp fromiso nows timestamps (i0 + i))) := by
  intro l
  induction l with
  | nil => intro i0 i; rfl
  | cons v rest ih =>
    intro i0 i
    cases i with
    | zero => rfl
    | succ j =>
      show (batchSamples uid rid fromiso nows timestamps rest (i0 + 1)).get? j = _
      rw [ih (i0 + 1) j]
      have harith : i0 + 1 + j = i0 + (j + 1) := by omega
      rw [harith]
      rfl

/-- Claim C6: with more than 100 values the batch endpoint fails with the
400 InvalidArgument error and leaves the telemetry store unchanged (the
error carries the unmodified state). -/
theorem batch_too_large_rejected (st : AppState) (uid : Nat)
    (batch : TemperatureEntryBatch) (fromiso : String → Option Nat) (nows : Nat → Nat)
    (hroom : roomExists st uid batch.room_id = true)
    (hlen : batch.temperatures.length > 100) :
    post_temperature_batch st uid batch fromiso nows =
      .error (⟨400, "Maximum 100 temperatures per request"⟩, st) := by
  simp [post_temperature_batch, hroom, hlen]

theorem batch_too_large_rejected_witness :
    post_temperature_batch stOneRoom 1 ⟨1, List.replicate 101 20, none⟩
      (fun _ => none) (fun _ => 0) =
      .error (⟨400, "Maximum 100 temperatures per request"⟩, stOneRoom) := by
  exact batch_too_large_rejected stOneRoom 1 ⟨1, List.replicate 101 20, none⟩
    (fun _ => none) (fun _ => 0) (by decide) (by decide)

/-- Claim C7: an accepted batch of N values writes exactly N samples in
input order and reports N accepted; entry `i` gets its supplied timestamp
when that parses (after normalizing `Z` to a UTC offset), and otherwise its
own per-entry now, which is at or after the call start whenever the clock
never runs backwards past the start. -/
theorem batch_accepted_writes_all (st : AppState) (uid : Nat)
    (batch : TemperatureEntryBatch) (fromiso : String → Option Nat)
    (nows : Nat → Nat) (callStart : Nat)
    (hroom : roomExists st uid batch.room_id = true)
    (hlen : ¬ batch.temperatures.length > 100)
    (hclock : ∀ i, callStart ≤ nows i) :
    post_temperature_batch st uid batch fromiso nows =
      .ok ({ st with store := st.store ++ batchWritten uid batch fromiso nows }, batch.temperatures.length) ∧
    (batchWritten uid batch fromiso nows).length = batch.temperatures.length ∧
    (batchWritten uid batch fromiso nows).map (fun smp => smp.value) = batch.temperatures ∧
    (∀ i v, batch.temperatures.get? i = some v →
      (batchWritten uid batch fromiso nows).get? i =
        some (mkTempSample uid batch.room_id v
          (entryTimestamp fromiso nows batch.timestamps i))) ∧
    (∀ i str t, tsAt batch.timestamps i = some str →
      fromiso (replaceZ str) = some t →
      entryTimestamp fromiso nows batch.timestamps i = t) ∧
    (∀ i, (tsAt batch.timestamps i = none ∨
        (∃ str, tsAt batch.timestamps i = some str ∧ fromiso (replaceZ str) = none)) →
      entryTimestamp fromiso nows batch.timestamps i = nows i ∧
        callStart ≤ entryTimestamp fromiso nows batch.timestamps i) := by
  refine ⟨by simp [post_temperature_batch, batchWritten, hroom, hlen],
    batchSamples_length uid batch.room_id fromiso nows batch.timestamps
      batch.temperatures 0,
    batchSamples_map_value uid batch.room_id fromiso nows batch.timestamps
      batch.temperatures 0,
    fun i v hv => ?_, fun i str t h1 h2 => ?_, fun i hcase => ?_⟩
  · show (batchSamples uid batch.room_id fromiso nows batch.timestamps batch.temperatures 0).get? i = _
    rw [batchSamples_get? uid batch.room_id fromiso nows batch.timestamps
      batch.temperatures 0 i, hv]
    simp
  · simp [entryTimestamp, h1, h2]
  · have he : entryTimestamp fromiso nows batch.timestamps i = nows i := by
      rcases hcase with h | ⟨str, h1, h2⟩
      · simp [entryTimestamp, h]
      · simp [entryTimestamp, h1, h2]
    exact ⟨he, he ▸ hclock i⟩

/-- A concrete parse function embedding `datetime.fromisoformat` on the one
timestamp string the witness batch supplies. -/
def fromisoExample : String → Option Nat :=
  fun s => if s = "1999-01-01T00:00:00+00:00" then some 915148800 else none

theorem batch_accepted_writes_all_witness :
    post_temperature_batch stOneRoom 1 ⟨1, [20, 19], some ["1999-01-01T00:00:00Z"]⟩
      fromisoExample (fun i => 100 + i) =
      .ok ({ stOneRoom with store := stOneRoom.store ++ batchWritten 1 ⟨1, [20, 19], some ["1999-01-01T00:00:00Z"]⟩ fromisoExample (fun i => 100 + i) }, 2) := by
  exact (batch_accepted_writes_all stOneRoom 1 ⟨1, [20, 19], some ["1999-01-01T00:00:00Z"]⟩
    fromisoExample (fun i => 100 + i) 50 (by decide) (by decide) (fun i => by show 50 ≤ 100 + i; omega)).1

/-- A row of `SELECT id, latitude, longitude FROM users`: one location the
weather refresh cycle processes. -/
structure LocationRow where
  owner_id : Nat
  latitude : ℚ
  longitude : ℚ
deriving DecidableEq

/-- The outcome of one location's interaction with the external weather
provider and the telemetry store inside `fetch_and_store_weather_data`
(main.py lines 87-115): the HTTP fetch may raise (network error, timeout,
non-2xx, malformed body), the `temperature_2m` field may be absent (no
write, no error), the store write may raise, or everything succeeds. -/
inductive FetchOutcome where
  | fetchFailure
  | missingTemperature
  | writeFailure (v : ℚ)
  | fetched (v : ℚ)
deriving DecidableEq

/-- A `weather_temperature` point as written by the refresh cycle: tagged
with the owner only, no room tag. -/
def mkWeatherSample (uid : Nat) (v : ℚ) (t : Nat) : Sample :=
  ⟨"weather_temperature", uid, none, v, t⟩

/-- One location's processing inside the per-location try block: only a
fully successful fetch-and-write appends a sample; every failure is caught,
logged and leaves the store as it was. -/
def processLocation (now : Nat) (store : List Sample) (loc : LocationRow)
    (o : FetchOutcome) : List Sample :=
  match o with
  | .fetched v => store ++ [mkWeatherSample loc.owner_id v now]
  | _ => store

/-- The per-location loop of one refresh cycle, each location paired with
its interaction outcome, processed in order. -/
def weatherCycleBody (now : Nat) :
    List Sample → List (LocationRow × FetchOutcome) → List Sample
  | store, [] => store
  | store, (loc, o) :: rest => weatherCycleBody now (processLocation now store loc o) rest

/-- One full cycle of `fetch_and_store_weather_data`: when the user query
itself fails (outer except) the whole cycle is skipped, otherwise every
location is processed. -/
def fetch_and_store_weather_cycle (now : Nat) (store : List Sample)
    (usersResult : Option (List (LocationRow × FetchOutcome))) : List Sample :=
  match usersResult with
  | none => store
  | some locs => weatherCycleBody now store locs

/-- The perpetual loop run for a given list of cycles (each with its
instant and user-query result): one cycle per sleep interval, in order. -/
def weatherLoopRun : List Sample → List (Nat × Option (List (LocationRow × FetchOutcome))) → List Sample
  | store, [] => store
  | store, (now, r) :: rest => weatherLoopRun (fetch_and_store_weather_cycle now store r) rest

/-- The sample a location contributes to the cycle, if its fetch and write
both succeed. -/
def successSample (now : Nat) (p : LocationRow × FetchOutcome) : Option Sample :=
  match p.2 with
  | .fetched v => some (mkWeatherSample p.1.owner_id v now)
  | _ => none

theorem weatherCycleBody_eq (now : Nat) :
    ∀ (locs : List (LocationRow × FetchOutcome)) (store : List Sample),
      weatherCycleBody now store locs = store ++ locs.filterMap (successSample now) := by
  intro locs
  induction locs with
  | nil => intro store; simp [weatherCycleBody]
  | cons p rest ih =>
    intro store
    obtain ⟨loc, o⟩ := p
    cases o with
    | fetched v => simp [weatherCycleBody, processLocation, ih, successSample]
    | fetchFailure => simp [weatherCycleBody, processLocation, ih, successSample]
    | missingTemperature => simp [weatherCycleBody, processLocation, ih, successSample]
    | writeFailure v => simp [weatherCycleBody, processLocation, ih, successSample]

/-- Claim C5: in each refresh cycle every location is processed
independently; a location whose fetch or write fails contributes nothing
and is simply skipped while the rest are still processed; exactly one
sample is appended per fully successful location; the cycle is a total
function (no exception escapes it) and cycles compose, so the loop goes on
to the next cycle. -/
theorem weather_cycle_isolation (now : Nat) (store : List Sample)
    (locs : List (LocationRow × FetchOutcome)) :
    weatherCycleBody now store locs = store ++ locs.filterMap (successSample now) ∧
    (weatherCycleBody now store locs).length =
      store.length + (locs.countP (fun p => (successSample now p).isSome)) ∧
    (∀ pre loc o post, successSample now (loc, o) = none →
      weatherCycleBody now store (pre ++ (loc, o) :: post) =
        weatherCycleBody now store (pre ++ post)) ∧
    (∀ cycles cycles' store0,
      weatherLoopRun store0 (cycles ++ cycles') =
        weatherLoopRun (weatherLoopRun store0 cycles) cycles') := by
  refine ⟨weatherCycleBody_eq now locs store, ?_, fun pre loc o post hnone => ?_, ?_⟩
  · rw [weatherCycleBody_eq now locs store]
    simp [List.length_filterMap_eq_countP]
  · rw [weatherCycleBody_eq, weatherCycleBody_eq]
    simp [List.filterMap_append, List.filterMap_cons, hnone]
  · intro cycles
    induction cycles with
    | nil => intro cycles' store0; rfl
    | cons c rest ih =>
      intro cycles' store0
      obtain ⟨n, r⟩ := c
      simp [weatherLoopRun, ih]

theorem weather_cycle_isolation_witness :
    weatherCycleBody 500 []
      [(⟨1, 52, 13⟩, .fetched 5), (⟨2, 48, 11⟩, .fetchFailure), (⟨3, 50, 8⟩, .fetched 7)] =
      [mkWeatherSample 1 5 500, mkWeatherSample 3 7 500] ∧
    weatherCycleBody 500 []
      ([(⟨1, 52, 13⟩, .fetched 5)] ++ (⟨2, 48, 11⟩, FetchOutcome.fetchFailure) :: [(⟨3, 50, 8⟩, .fetched 7)]) =
      weatherCycleBody 500 [] ([(⟨1, 52, 13⟩, .fetched 5)] ++ [(⟨3, 50, 8⟩, .fetched 7)]) := by
  have h := weather_cycle_isolation 500 []
    [(⟨1, 52, 13⟩, .fetched 5), (⟨2, 48, 11⟩, .fetchFailure), (⟨3, 50, 8⟩, .fetched 7)]
  exact ⟨h.1.trans (by decide),
    h.2.2.1 [(⟨1, 52, 13⟩, .fetched 5)] ⟨2, 48, 11⟩ .fetchFailure
      [(⟨3, 50, 8⟩, .fetched 7)] (by decide)⟩

/-- Ascending-time order, the `sort(columns: ["_time"], desc: false)` of
the range query. -/
def timeAsc (a b : Sample) : Prop := a.timestamp ≤ b.timestamp

instance : DecidableRel timeAsc := fun a b => Nat.decLe a.timestamp b.timestamp

instance : IsTotal Sample timeAsc := ⟨fun a b => Nat.le_total a.timestamp b.timestamp⟩

instance : IsTrans Sample timeAsc := ⟨fun _ _ _ => Nat.le_trans⟩

/-- The resolved `start:` of the Flux range of `get_room_temperatures`:
an omitted start becomes the relative duration `-24h`, which Flux anchors
at `now()` (main.py lines 482-485). -/
def resolveStart (start? : Option Nat) (now : Nat) : Nat :=
  match start? with
  | none => now - 86400
  | some t => t

/-- The resolved `stop:` of the Flux range: an omitted end becomes `now()`
(main.py lines 487-490). -/
def resolveEnd (end? : Option Nat) (now : Nat) : Nat :=
  match end? with
  | none => now
  | some t => t

/-- Membership of a timestamp in a Flux `range(start, stop)`: start
inclusive, stop exclusive. -/
def inRange (startT stopT t : Nat) : Bool :=
  decide (startT ≤ t) && decide (t < stopT)

/-- The samples of the room series falling in the resolved range. -/
def rangeFiltered (st : AppState) (uid rid : Nat) (start? end? : Option Nat)
    (now : Nat) : List Sample :=
  st.store.filter (fun s => roomSampleMatch uid rid s && inRange (resolveStart start? now) (resolveEnd end? now) s.timestamp)

/-- The endpoint `GET /temperature/{room_id}` (main.py lines 468-509):
range-filtered, tag-filtered and ascending-sorted samples of the room. -/
def get_room_temperatures (st : AppState) (uid rid : Nat)
    (start? end? : Option Nat) (now : Nat) : Except HTTPError (List Sample) :=
  if roomExists st uid rid = false then
    .error ⟨404, "Room not found"⟩
  else
    .ok (List.insertionSort timeAsc (rangeFiltered st uid rid start? end? now))

/-- A state whose single room sample sits at instant 99000, used to probe
the range defaults at a query instant far past it. -/
def stOldSample : AppState :=
  { rooms := [⟨1, 1, "Living"⟩],
    settings := [⟨1, 1, "Europe/Berlin", 21, 18, 79200, 21600⟩],
    store := [⟨"temperature", 1, some 1, 20, 99000⟩] }

/-- Claim C9 counterexample: querying room 1 at instant 300000 with an
explicit end bound 100000 and an omitted start returns no samples, although
the store holds a sample of the room at instant 99000, squarely inside the
24 hours ending at the end bound.  The omitted start resolved to 24 hours
before now (213600), not 24 hours before the end bound (13600), so with an
explicit end and omitted start the window is not the 24 hours ending at
that end bound. -/
theorem range_default_start_counterexample :
    get_room_temperatures stOldSample 1 1 none (some 100000) 300000 = .ok [] ∧
    roomSampleMatch 1 1 ⟨"temperature", 1, some 1, 20, 99000⟩ = true ∧
    inRange (100000 - 86400) 100000 99000 = true ∧
    resolveStart none 300000 = 213600 := by
  refine ⟨?_, by decide, by decide, by decide⟩
  show Except.ok _ = _
  exact congrArg Except.ok (by decide)

/-- Claim C9 as amended: an omitted end bound defaults to now; an omitted
start bound defaults to 24 hours before now, the anchor of the Flux
relative duration (it coincides with 24 hours before the end bound only
when the end bound is itself omitted); the result is sorted by ascending
timestamp and holds exactly the room samples of the half-open resolved
window. -/
theorem range_defaults (st : AppState) (uid rid : Nat) (start? end? : Option Nat)
    (now : Nat) (hroom : roomExists st uid rid = true) :
    get_room_temperatures st uid rid start? end? now =
      .ok (List.insertionSort timeAsc (rangeFiltered st uid rid start? end? now)) ∧
    resolveStart none now = now - 86400 ∧
    resolveEnd none now = now ∧
    List.Sorted timeAsc (List.insertionSort timeAsc (rangeFiltered st uid rid start? end? now)) ∧
    (List.insertionSort timeAsc (rangeFiltered st uid rid start? end? now)).Perm
      (rangeFiltered st uid rid start? end? now) := by
  refine ⟨by simp [get_room_temperatures, hroom], rfl, rfl,
    List.sorted_insertionSort timeAsc (rangeFiltered st uid rid start? end? now),
    List.perm_insertionSort timeAsc (rangeFiltered st uid rid start? end? now)⟩

theorem range_defaults_witness :
    get_room_temperatures stOldSample 1 1 none none 100000 =
      .ok (List.insertionSort timeAsc (rangeFiltered stOldSample 1 1 none none 100000)) := by
  exact (range_defaults stOldSample 1 1 none none 100000 (by decide)).1

/-- The endpoint `DELETE /rooms/{room_id}` (main.py lines 334-355).
`influxOk` tells whether the telemetry range-delete succeeds; when it
raises, the exception is caught and only logged.  The SQL delete then
removes the rooms row by primary key, and by `ON DELETE CASCADE` (sql.py)
the room_settings rows referencing it go with it. -/
def delete_room (st : AppState) (uid rid now : Nat) (influxOk : Bool) :
    Except (HTTPError × AppState) (AppState × String) :=
  if roomExists st uid rid = false then
    .error (⟨404, "Room not found or access denied"⟩, st)
  else
    let store' :=
      if influxOk then st.store.filter (fun s => !(roomSampleMatch uid rid s && decide (s.timestamp < now))) else st.store
    .ok ({ rooms := st.rooms.filter (fun r => !(r.id == rid)),
           settings := st.settings.filter (fun s => !(s.room_id == rid)),
           store := store' },
         "Room and all temperature data deleted successfully")

/-- Claim C10: for a room owned by the caller, deletion reports success and
removes the room row (and, via cascade, its settings row) from the SQL
state even when the telemetry range-delete fails — with a failing telemetry
delete the store is left untouched while the relational deletion still
happens, and with a succeeding one the relational outcome is the same. -/
theorem delete_room_unconditional (st : AppState) (uid rid now : Nat)
    (hroom : roomExists st uid rid = true) :
    delete_room st uid rid now false =
      .ok ({ rooms := st.rooms.filter (fun r => !(r.id == rid)),
             settings := st.settings.filter (fun s => !(s.room_id == rid)),
             store := st.store },
           "Room and all temperature data deleted successfully") ∧
    (∀ influxOk, ∃ st',
      delete_room st uid rid now influxOk =
        .ok (st', "Room and all temperature data deleted successfully") ∧
      st'.rooms = st.rooms.filter (fun r => !(r.id == rid)) ∧
      st'.settings = st.settings.filter (fun s => !(s.room_id == rid))) ∧
    (∀ r, r ∈ st.rooms.filter (fun r => !(r.id == rid)) → r.id ≠ rid) ∧
    (∀ s, s ∈ st.settings.filter (fun s => !(s.room_id == rid)) → s.room_id ≠ rid) := by
  refine ⟨by simp [delete_room, hroom], fun influxOk => ?_, fun r hr => ?_, fun s hs => ?_⟩
  · cases influxOk with
    | false =>
      refine ⟨{ rooms := st.rooms.filter (fun r => !(r.id == rid)),
                settings := st.settings.filter (fun s => !(s.room_id == rid)),
                store := st.store }, by simp [delete_room, hroom], rfl, rfl⟩
    | true =>
      refine ⟨{ rooms := st.rooms.filter (fun r => !(r.id == rid)),
                settings := st.settings.filter (fun s => !(s.room_id == rid)),
                store := st.store.filter (fun s => !(roomSampleMatch uid rid s && decide (s.timestamp < now))) },
        by simp [delete_room, hroom], rfl, rfl⟩
  · have := (List.mem_filter.mp hr).2
    simpa using this
  · have := (List.mem_filter.mp hs).2
    simpa using this

theorem delete_room_unconditional_witness :
    delete_room stOneRoom 1 1 2000 false =
      .ok ({ rooms := stOneRoom.rooms.filter (fun r => !(r.id == 1)),
             settings := stOneRoom.settings.filter (fun s => !(s.room_id == 1)),
             store := stOneRoom.store },
           "Room and all temperature data deleted successfully") := by
  exact (delete_room_unconditional stOneRoom 1 1 2000 (by decide)).1

end HeatControl
